import Mathlib

/-!
Shallow embedding of the chat subsystem of the work-flow-connect repository.

Server side (src/server/src/controllers/chat.controller.js): the relational
store is modelled as explicit lists of rows (`DB`), SQL ids produced by
`uuid_generate_v4()` are modelled by a fresh-id counter `nextId`, and the SQL
`NOW()` timestamp by the clock field `now`.  Each HTTP controller becomes a
pure function from a `DB` (plus the request data) to a result value and an
updated `DB`; the HTTP status codes become constructors of per-operation
result types.

The controller invokes `sequelize.query(..., { type: QueryTypes.SELECT })`
throughout; with that type the call resolves to the rows array itself, not a
`[rows, metadata]` pair, so `const [x] = await sequelize.query(...)` binds
the first row object.  The embedding follows these semantics faithfully, and
three sites of the controller are therefore modelled as the broken code they
are: in `createChat` the dedup hit-branch is dead (`existingChats` is the
first row, whose `.length` is `undefined`), in `leaveChat` the count
destructure `const [[{ count }]]` throws a TypeError, rolling the
transaction back into a 500, and in `getChatMessages` the page bind
`const [messages]` is the first row, so `messages.reverse()` throws a 500
after the mark-read UPDATE (which runs outside any transaction) has
persisted.

Client side (the ChatContext provider): the React state becomes a
`ClientState` value and each state update becomes a pure function.
-/

/-- A row of the `Users` table (the attributes the chat controller reads). -/
structure UserRec where
  id : Nat
  name : String
  photoURL : String
deriving Repr, DecidableEq

/-- A row of the `Chats` table. -/
structure Chat where
  id : Nat
  name : String
  isGroup : Bool
  lastMessageAt : Nat
deriving Repr, DecidableEq

/-- A row of the `ChatParticipants` join table. -/
structure ChatParticipant where
  chatId : Nat
  userId : Nat
deriving Repr, DecidableEq

/-- A row of the `Messages` table. -/
structure Message where
  id : Nat
  content : String
  chatId : Nat
  userId : Nat
  read : Bool
  createdAt : Nat
deriving Repr, DecidableEq

/-- The relational store. -/
structure DB where
  users : List UserRec
  chats : List Chat
  participants : List ChatParticipant
  messages : List Message
  nextId : Nat
  now : Nat
deriving Repr, DecidableEq

/-- The user ids of the `ChatParticipants` rows of one chat
(one entry per row, duplicates included, like `COUNT(*)`). -/
def partsOf (ps : List ChatParticipant) (cid : Nat) : List Nat :=
  (ps.filter (fun p => p.chatId == cid)).map (fun p => p.userId)

/-- Participant user ids of a chat in a store. -/
def participantsOf (db : DB) (cid : Nat) : List Nat :=
  partsOf db.participants cid

/-- `SELECT 1 FROM "ChatParticipants" WHERE "chatId" = :chatId AND "userId" = :userId`. -/
def isParticipant (db : DB) (cid uid : Nat) : Bool :=
  db.participants.any (fun p => p.chatId == cid && p.userId == uid)

/-- `SELECT 1 FROM "Users" WHERE id = :userId`. -/
def userExists (db : DB) (uid : Nat) : Bool :=
  db.users.any (fun u => u.id == uid)

/-- `SELECT 1 FROM "Chats" WHERE id = :chatId`. -/
def chatExists (db : DB) (cid : Nat) : Bool :=
  db.chats.any (fun c => c.id == cid)

/-- `User.findByPk`. -/
def findUser (db : DB) (uid : Nat) : Option UserRec :=
  db.users.find? (fun u => u.id == uid)

/-- `UPDATE "Chats" SET "lastMessageAt" = NOW() WHERE id = :chatId`. -/
def touchChat (chats : List Chat) (cid t : Nat) : List Chat :=
  chats.map (fun c => if c.id == cid then { c with lastMessageAt := t } else c)

/-! ## createChat (chat.controller.js, exports.createChat) -/

/-- Outcome of `createChat`: HTTP 400 / 201.  The 200 existing-chat response
also present in the source is dead code (see `createChat`) and so has no
constructor. -/
inductive CreateChatResult where
  | validationError
  | created (chat : Chat)
deriving Repr, DecidableEq

/-- The condition of `createChat`'s raw-SQL dedup query: a chat with
`isGroup = false`, exactly two participant rows, one for `u1` and one for
`u2`.  The query runs in the source, but the branch consuming its result is
dead (see `createChat`); the predicate is kept to state what the store
actually holds. -/
def privMatch (db : DB) (u1 u2 : Nat) (c : Chat) : Bool :=
  c.isGroup == false
    && (participantsOf db c.id).length == 2
    && (participantsOf db c.id).contains u1
    && (participantsOf db c.id).contains u2

/-- Private-chat display name: the name of the first participant id different
from the caller, when that user exists; otherwise the request's `name`. -/
def resolvePrivateName (db : DB) (callerId : Nat) (allIds : List Nat)
    (name : String) : String :=
  match allIds.find? (fun i => i != callerId) with
  | some other =>
    match findUser db other with
    | some u => u.name
    | none => name
  | none => name

/-- `exports.createChat`.  Validation: `participantIds.length < 1` (checked on
the raw request list, before the caller id is forced in).  The caller's id is
appended when absent.  The private-chat dedup query runs when
`!isGroup && allParticipantIds.length === 2`, but `const [existingChats]`
binds its first row object under `QueryTypes.SELECT`, so
`existingChats.length > 0` compares `undefined > 0` and the existing-chat
return never fires: every valid call falls through and inserts one `Chats`
row plus one `ChatParticipants` row per entry of the final list, duplicates
of an existing pair included. -/
def createChat (db : DB) (callerId : Nat) (participantIds : List Nat)
    (name : String) (isGroup : Bool) : CreateChatResult × DB :=
  if participantIds.length < 1 then (.validationError, db)
  else
    let allIds :=
      if participantIds.contains callerId then participantIds
      else participantIds ++ [callerId]
    let chatName :=
      match isGroup, allIds with
      | false, [_, _] => resolvePrivateName db callerId allIds name
      | _, _ => name
    let newChat : Chat :=
      { id := db.nextId, name := chatName, isGroup := isGroup,
        lastMessageAt := db.now }
    let newRows := allIds.map
      (fun uid => ({ chatId := newChat.id, userId := uid } : ChatParticipant))
    (.created newChat,
      { db with
          chats := db.chats ++ [newChat],
          participants := db.participants ++ newRows,
          nextId := db.nextId + 1 })

/-! ## addParticipant (chat.controller.js, exports.addParticipant) -/

/-- Outcome of `addParticipant`: 404 (chat) / 403 / 404 (user) / 400 / 200. -/
inductive AddParticipantResult where
  | chatNotFound
  | notParticipant
  | userNotFound
  | alreadyParticipant
  | ok
deriving Repr, DecidableEq

/-- The system-message text inserted by `addParticipant`. -/
def joinNotice : String := "Un nuevo participante ha sido añadido al chat"

/-- The system-message text inserted by `leaveChat`. -/
def leaveNotice : String := "Un usuario ha abandonado el chat"

/-- `exports.addParticipant`: checks, in order, that the chat exists, that the
requesting user is a participant, that the target user exists, and that the
target is not already a participant; then inserts the participant row, a
system message (`read = true`, authored by the requesting user) and bumps
`lastMessageAt`.  No `isGroup` condition appears anywhere. -/
def addParticipant (db : DB) (currentUserId cid uid : Nat) :
    AddParticipantResult × DB :=
  match db.chats.find? (fun c => c.id == cid) with
  | none => (.chatNotFound, db)
  | some _ =>
    if !(isParticipant db cid currentUserId) then (.notParticipant, db)
    else if !(userExists db uid) then (.userNotFound, db)
    else if isParticipant db cid uid then (.alreadyParticipant, db)
    else
      let sysMsg : Message :=
        { id := db.nextId, content := joinNotice, chatId := cid,
          userId := currentUserId, read := true, createdAt := db.now }
      (.ok,
        { db with
            participants := db.participants ++ [{ chatId := cid, userId := uid }],
            messages := db.messages ++ [sysMsg],
            chats := touchChat db.chats cid db.now,
            nextId := db.nextId + 1 })

/-! ## leaveChat (chat.controller.js, exports.leaveChat) -/

/-- Outcome of `leaveChat`: 404 / 400 / 500.  The 200 success responses in
the source are unreachable (see `leaveChat`). -/
inductive LeaveChatResult where
  | chatNotFound
  | notParticipant
  | serverError
deriving Repr, DecidableEq

/-- `exports.leaveChat`: checks that the chat exists and that the user is a
participant (no `isGroup` condition appears anywhere).  The participant
DELETE then runs inside the transaction, but the count query's destructure
`const [[{ count }]]` binds the first row object under `QueryTypes.SELECT`
and applies an array pattern to that non-iterable object, throwing a
TypeError; the catch block rolls the transaction back and answers 500.  So
no leave ever succeeds: no participant row, chat, or message deletion and no
leave notice ever persists, and the store is returned unchanged. -/
def leaveChat (db : DB) (uid cid : Nat) : LeaveChatResult × DB :=
  match db.chats.find? (fun c => c.id == cid) with
  | none => (.chatNotFound, db)
  | some _ =>
    if !(isParticipant db cid uid) then (.notParticipant, db)
    else (.serverError, db)

/-! ## sendMessage (chat.controller.js, exports.sendMessage) -/

/-- The row shape returned to clients: message fields plus the joined sender
display info (`LEFT JOIN "Users"`, hence an `Option`). -/
structure MessageOut where
  id : Nat
  content : String
  senderId : Nat
  read : Bool
  timestamp : Nat
  user : Option UserRec
deriving Repr, DecidableEq

/-- The SELECT ... LEFT JOIN "Users" row built from a message. -/
def msgToOut (db : DB) (m : Message) : MessageOut :=
  { id := m.id, content := m.content, senderId := m.userId, read := m.read,
    timestamp := m.createdAt, user := findUser db m.userId }

/-- Outcome of `sendMessage`: 400 / 404 / 403 / 201. -/
inductive SendMessageResult where
  | validationError
  | chatNotFound
  | forbidden
  | ok (out : MessageOut)
deriving Repr, DecidableEq

/-- The JS emptiness test `!content || content.trim() === ''`: the content
has no non-whitespace character. -/
def isBlank (s : String) : Bool := s.toList.all (fun c => c.isWhitespace)

/-- `exports.sendMessage`: rejects empty or whitespace-only content
(`!content || content.trim() === ''`), then missing chat, then a sender who is
not a participant; on success inserts the message with `read = false`, bumps
`lastMessageAt` and returns the joined row. -/
def sendMessage (db : DB) (uid cid : Nat) (content : String) :
    SendMessageResult × DB :=
  if isBlank content then (.validationError, db)
  else if !(chatExists db cid) then (.chatNotFound, db)
  else if !(isParticipant db cid uid) then (.forbidden, db)
  else
    let m : Message :=
      { id := db.nextId, content := content, chatId := cid, userId := uid,
        read := false, createdAt := db.now }
    let db1 :=
      { db with
          messages := db.messages ++ [m],
          chats := touchChat db.chats cid db.now,
          nextId := db.nextId + 1 }
    (.ok (msgToOut db1 m), db1)

/-! ## mark-read (the UPDATE shared by getChat and getChatMessages) -/

/-- Row-level effect of
`UPDATE "Messages" SET read = true
 WHERE "chatId" = :chatId AND "userId" != :userId AND read = false`. -/
def markReadMsg (cid uid : Nat) (m : Message) : Message :=
  if m.chatId == cid && !(m.userId == uid) && m.read == false then
    { m with read := true }
  else m

/-- The mark-read UPDATE applied to the store. -/
def markRead (db : DB) (cid uid : Nat) : DB :=
  { db with messages := db.messages.map (markReadMsg cid uid) }

/-! ## getChatMessages (chat.controller.js, exports.getChatMessages) -/

/-- Outcome of `getChatMessages`: 403 / 500.  The 200 page response in the
source is unreachable (see `getChatMessages`). -/
inductive ListMessagesResult where
  | forbidden
  | serverError
deriving Repr, DecidableEq

/-- `exports.getChatMessages`: rejects a requester who is not a participant.
Otherwise the page SELECT (`ORDER BY m."createdAt" DESC LIMIT :limit OFFSET
:offset`, `offset = (page - 1) * limit`) runs, but `const [messages]` binds
its first row object under `QueryTypes.SELECT`; the mark-read UPDATE then
executes — outside any transaction, so it persists — and the final
`messages.reverse()` throws a TypeError, answering 500.  The endpoint never
returns a page: its only real effects are the 403 check and the mark-read
update. -/
def getChatMessages (db : DB) (uid cid page limit : Nat) :
    ListMessagesResult × DB :=
  if !(isParticipant db cid uid) then (.forbidden, db)
  else (.serverError, markRead db cid uid)

/-! ## Reachable store states

The store states reachable through the chat mutation endpoints
(createChat, addParticipant, leaveChat), starting from a store holding only
user rows, plus clock advance between requests. -/

/-- A store holding only user rows. -/
def DB.init (us : List UserRec) (t : Nat) : DB :=
  { users := us, chats := [], participants := [], messages := [],
    nextId := 0, now := t }

/-- Store states reachable by the chat participant/chat operations. -/
inductive Reachable : DB → Prop where
  | init (us : List UserRec) (t : Nat) : Reachable (DB.init us t)
  | tick (db : DB) (t : Nat) : Reachable db → Reachable { db with now := t }
  | create (db : DB) (caller : Nat) (ps : List Nat) (name : String) (g : Bool) :
      Reachable db → Reachable (createChat db caller ps name g).2
  | add (db : DB) (cur cid uid : Nat) :
      Reachable db → Reachable (addParticipant db cur cid uid).2
  | leave (db : DB) (uid cid : Nat) :
      Reachable db → Reachable (leaveChat db uid cid).2

/-! ## Client-side Chat Session Manager (the ChatContext provider)

Ids on the client are strings: server ids are UUIDs, optimistic ids are
`"temp_" + Date.now()`. -/

/-- A client-side message entry. -/
structure CMessage where
  id : String
  senderId : String
  content : String
  timestamp : Nat
  read : Bool
deriving Repr, DecidableEq

/-- A client-side chat with its message list, newest first (the provider
always prepends). -/
structure CChat where
  id : String
  messages : List CMessage
deriving Repr, DecidableEq

/-- The provider's `chats` state. -/
structure ClientState where
  chats : List CChat
deriving Repr, DecidableEq

/-- The optimistic entry built by the provider's `sendMessage`: its id is
`"temp_" + Date.now()`, its sender is the current user, `read` is false. -/
def tempMessage (senderId content : String) (now : Nat) : CMessage :=
  { id := "temp_" ++ toString now, senderId := senderId, content := content,
    timestamp := now, read := false }

/-- Prepend a message to the chat with the given id (the
`messages: [message, ...chat.messages]` update). -/
def prependToChat (st : ClientState) (cid : String) (m : CMessage) : ClientState :=
  { st with
      chats := st.chats.map (fun c =>
        if c.id == cid then { c with messages := m :: c.messages } else c) }

/-- The provider's `new_message` socket handler: it prepends the incoming
message to the matching chat unconditionally — no temporary-id lookup, no
duplicate check. -/
def handleNewMessage (st : ClientState) (cid : String) (m : CMessage) : ClientState :=
  prependToChat st cid m

/-- The optimistic step of the provider's `sendMessage`: build the temp entry
and render it immediately; returns the new state and the temp entry. -/
def optimisticSend (st : ClientState) (cid senderId content : String) (now : Nat) :
    ClientState × CMessage :=
  let temp := tempMessage senderId content now
  (prependToChat st cid temp, temp)

/-- The REST-fallback reconciliation of the provider's `sendMessage`:
find-and-replace the optimistic entry by its temporary id. -/
def reconcileRest (st : ClientState) (cid tempId : String) (real : CMessage) :
    ClientState :=
  { st with
      chats := st.chats.map (fun c =>
        if c.id == cid then
          { c with
              messages := c.messages.map (fun m => if m.id == tempId then real else m) }
        else c) }

/-- Modelled from the spec: the server socket controller
(`controllers/socket.controller`, not present under src/) fans a sent message
out to every member of the chat room as a `new_message` event, the sender's
own socket included ("the server subsequently echoes it back to the sender's
own socket room membership").  Delivering that echo to this client runs the
`new_message` handler. -/
def serverEcho (st : ClientState) (cid : String) (canonical : CMessage) : ClientState :=
  handleNewMessage st cid canonical

/-- The message list the provider holds for a chat id (first matching chat). -/
def chatMsgs (st : ClientState) (cid : String) : List CMessage :=
  match st.chats.find? (fun c => c.id == cid) with
  | some c => c.messages
  | none => []

/-! ## Derived definitions and concrete stores used by the development -/

/-- Every chat of the store has at least one participant row. -/
def chatsNonEmpty (db : DB) : Prop :=
  ∀ c ∈ db.chats, 1 ≤ (participantsOf db c.id).length

/-- Store used by several witness theorems. -/
def dbW : DB :=
  { users := [{ id := 0, name := "A", photoURL := "" },
              { id := 1, name := "B", photoURL := "" },
              { id := 2, name := "C", photoURL := "" }],
    chats := [{ id := 5, name := "B", isGroup := false, lastMessageAt := 3 }],
    participants := [{ chatId := 5, userId := 0 }, { chatId := 5, userId := 1 }],
    messages := [{ id := 6, content := "hola", chatId := 5, userId := 0,
                   read := false, createdAt := 4 }],
    nextId := 7, now := 9 }

/-- Store with a group chat {0, 1, 2}, used by the C4 and C10 theorems. -/
def dbG : DB :=
  { users := [{ id := 0, name := "A", photoURL := "" },
              { id := 1, name := "B", photoURL := "" },
              { id := 2, name := "C", photoURL := "" }],
    chats := [{ id := 8, name := "G", isGroup := true, lastMessageAt := 2 }],
    participants := [{ chatId := 8, userId := 0 }, { chatId := 8, userId := 1 },
                     { chatId := 8, userId := 2 }],
    messages := [],
    nextId := 9, now := 4 }

/-- A reachable store in which a private chat has three participants: user 0
calls createChat with `participantIds = [1, 2]` and `isGroup = false`. -/
def dbC8 : DB :=
  (createChat (DB.init [] 0) 0 [1, 2] "" false).2

/-- Store of the C9 runs: one chat with no messages yet. -/
def c9St : ClientState := { chats := [{ id := "c", messages := [] }] }

/-- The canonical copy the server echoes back for the sent message. -/
def c9Canonical : CMessage :=
  { id := "a1b2", senderId := "alice", content := "hola", timestamp := 5,
    read := false }

/-- The canonical chat record of the C9 witness run. -/
def c9ChatW : CChat := { id := "c", messages := [] }

/-! ## Theorems -/

/-- Claim C6: the mark-read update is monotonic (it only turns `read = false`
into `read = true`, never the reverse), idempotent (any positive number of
applications equals one application), and it never changes a message whose
sender is the requester. -/
theorem C6_markRead (db : DB) (cid uid : Nat) :
    ((markRead db cid uid).messages = db.messages.map (markReadMsg cid uid))
    ∧ (∀ m : Message,
        (m.read = true → (markReadMsg cid uid m).read = true)
        ∧ (markReadMsg cid uid m = m
            ∨ (m.read = false ∧ markReadMsg cid uid m = { m with read := true }))
        ∧ (m.userId = uid → markReadMsg cid uid m = m))
    ∧ (∀ n : Nat, (fun d => markRead d cid uid)^[n] (markRead db cid uid)
        = markRead db cid uid) := by
  refine ⟨rfl, ?_, ?_⟩
  · intro m
    refine ⟨?_, ?_, ?_⟩
    · intro h
      unfold markReadMsg
      split
      · rfl
      · exact h
    · by_cases h : (m.chatId == cid && !(m.userId == uid) && m.read == false) = true
      · right
        have hr : m.read = false := by
          simp only [Bool.and_eq_true, beq_iff_eq, Bool.not_eq_true'] at h
          exact h.2
        exact ⟨hr, by unfold markReadMsg; rw [if_pos h]⟩
      · left
        unfold markReadMsg
        rw [if_neg h]
    · intro h
      unfold markReadMsg
      rw [if_neg]
      simp [h]
  · intro n
    apply Function.iterate_fixed
    show markRead (markRead db cid uid) cid uid = markRead db cid uid
    unfold markRead
    simp only [List.map_map]
    congr 1
    apply List.map_congr_left
    intro m _
    show markReadMsg cid uid (markReadMsg cid uid m) = markReadMsg cid uid m
    unfold markReadMsg
    split
    · simp
    · rfl

/-- Witness for C6 at a concrete store: the update rewrites the message list
pointwise and three applications equal one. -/
theorem C6_markRead_witness :
    ((markRead dbW 5 1).messages = dbW.messages.map (markReadMsg 5 1))
    ∧ ((fun d => markRead d 5 1)^[3] (markRead dbW 5 1) = markRead dbW 5 1)
    ∧ (markReadMsg 5 1 ({ id := 6, content := "hola", chatId := 5, userId := 0,
                          read := false, createdAt := 4 } : Message)
       = ({ id := 6, content := "hola", chatId := 5, userId := 0,
            read := true, createdAt := 4 } : Message)) :=
  ⟨(C6_markRead dbW 5 1).1, (C6_markRead dbW 5 1).2.2 3, by decide⟩

/-- Helper for several claims: `leaveChat` never changes the store — every
valid leave rolls back at the throwing count destructure, and the failure
branches write nothing either. -/
theorem leaveChat_state (db : DB) (uid cid : Nat) : (leaveChat db uid cid).2 = db := by
  unfold leaveChat
  split
  · rfl
  · split <;> rfl

/-- Claim C10 as amended: the system join notice inserted by `addParticipant`
is persisted with `read = true` and with the acting user as sender, a
`read = true` message is left unchanged by the mark-read update, and a user
message appended by `sendMessage` is persisted with `read = false`;
`leaveChat` never persists any leave notice — its message list is returned
unchanged, since the transaction always rolls back. -/
theorem C10_system_messages (db : DB) (cur cid uid target : Nat) :
    ((addParticipant db cur cid target).1 = .ok →
      ∃ m, (addParticipant db cur cid target).2.messages = db.messages ++ [m]
        ∧ m.read = true ∧ m.userId = cur ∧ m.content = joinNotice)
    ∧ ((leaveChat db uid cid).2.messages = db.messages)
    ∧ (∀ m : Message, m.read = true → ∀ c u, markReadMsg c u m = m)
    ∧ (∀ (u c : Nat) (content : String) (out : MessageOut),
        (sendMessage db u c content).1 = .ok out →
        ∃ m, (sendMessage db u c content).2.messages = db.messages ++ [m]
          ∧ m.read = false ∧ out.read = false) := by
  refine ⟨?_, ?_, ?_, ?_⟩
  · intro h
    unfold addParticipant at h ⊢
    cases hfind : db.chats.find? (fun c => c.id == cid) with
    | none => simp only [hfind] at h; exact absurd h (by simp)
    | some c =>
      simp only [hfind] at h ⊢
      by_cases h1 : (!isParticipant db cid cur) = true
      · rw [if_pos h1] at h; exact absurd h (by simp)
      · rw [if_neg h1] at h ⊢
        by_cases h2 : (!userExists db target) = true
        · rw [if_pos h2] at h; exact absurd h (by simp)
        · rw [if_neg h2] at h ⊢
          by_cases h3 : isParticipant db cid target = true
          · rw [if_pos h3] at h; exact absurd h (by simp)
          · rw [if_neg h3] at h ⊢
            exact ⟨_, rfl, rfl, rfl, rfl⟩
  · rw [leaveChat_state db uid cid]
  · intro m hm c u
    unfold markReadMsg
    rw [if_neg]
    simp [hm]
  · intro u c content out h
    unfold sendMessage at h ⊢
    by_cases h1 : isBlank content = true
    · rw [if_pos h1] at h; exact absurd h (by simp)
    · rw [if_neg h1] at h ⊢
      by_cases h2 : (!chatExists db c) = true
      · rw [if_pos h2] at h; exact absurd h (by simp)
      · rw [if_neg h2] at h ⊢
        by_cases h3 : (!isParticipant db c u) = true
        · rw [if_pos h3] at h; exact absurd h (by simp)
        · rw [if_neg h3] at h ⊢
          refine ⟨_, rfl, rfl, ?_⟩
          have hout : SendMessageResult.ok _ = SendMessageResult.ok out := h
          injection hout with hout
          rw [← hout]
          rfl

/-- Counterexample for C10: a valid leave of the group chat 8 by participant
0 persists no message at all — in particular no leave notice — because the
transaction rolls back at the throwing count destructure. -/
theorem C10_counterexample :
    chatExists dbG 8 = true
    ∧ isParticipant dbG 8 0 = true
    ∧ (leaveChat dbG 0 8).2.messages = dbG.messages
    ∧ (leaveChat dbG 0 8).2.messages.filter (fun m => m.content == leaveNotice) = [] := by
  decide

/-- Witness for C10 as amended: on a concrete store the join notice is
persisted read, authored by the acting user, and a leave leaves the message
list unchanged. -/
theorem C10_system_messages_witness :
    (∃ m, (addParticipant dbW 0 5 2).2.messages = dbW.messages ++ [m]
        ∧ m.read = true ∧ m.userId = 0 ∧ m.content = joinNotice)
    ∧ (leaveChat dbG 0 8).2.messages = dbG.messages :=
  ⟨(C10_system_messages dbW 0 5 0 2).1 (by decide),
   (C10_system_messages dbG 0 8 0 2).2.1⟩

/-- Claim C5: `sendMessage` fails with the validation error exactly on
empty/whitespace-only content, with not-found when the chat is absent, with
forbidden when the sender is not a participant — in each failure case the
store is unchanged — and on success appends exactly one message with
`read = false`, bumps the chat's `lastMessageAt`, and returns the message
with the sender's display info resolved. -/
theorem C5_sendMessage (db : DB) (uid cid : Nat) (content : String) :
    (isBlank content = true → sendMessage db uid cid content = (.validationError, db))
    ∧ (isBlank content = false → chatExists db cid = false →
        sendMessage db uid cid content = (.chatNotFound, db))
    ∧ (isBlank content = false → chatExists db cid = true → isParticipant db cid uid = false →
        sendMessage db uid cid content = (.forbidden, db))
    ∧ (isBlank content = false → chatExists db cid = true → isParticipant db cid uid = true →
        ∃ m : Message,
          (sendMessage db uid cid content).1
            = .ok (msgToOut (sendMessage db uid cid content).2 m)
          ∧ (sendMessage db uid cid content).2.messages = db.messages ++ [m]
          ∧ m.read = false ∧ m.content = content ∧ m.userId = uid ∧ m.chatId = cid
          ∧ (sendMessage db uid cid content).2.chats = touchChat db.chats cid db.now
          ∧ (msgToOut (sendMessage db uid cid content).2 m).senderId = uid
          ∧ (msgToOut (sendMessage db uid cid content).2 m).user = findUser db uid) := by
  refine ⟨?_, ?_, ?_, ?_⟩
  · intro h
    unfold sendMessage
    rw [if_pos (by simp [h])]
  · intro h1 h2
    unfold sendMessage
    rw [if_neg (by simp [h1]), if_pos (by simp [h2])]
  · intro h1 h2 h3
    unfold sendMessage
    rw [if_neg (by simp [h1]), if_neg (by simp [h2]), if_pos (by simp [h3])]
  · intro h1 h2 h3
    unfold sendMessage
    rw [if_neg (by simp [h1]), if_neg (by simp [h2]), if_neg (by simp [h3])]
    exact ⟨_, rfl, rfl, rfl, rfl, rfl, rfl, rfl, rfl, rfl⟩

/-- Witness for C5: concrete failure and success cases. -/
theorem C5_sendMessage_witness :
    (sendMessage dbW 0 5 "   " = (.validationError, dbW))
    ∧ (sendMessage dbW 0 99 "hey" = (.chatNotFound, dbW))
    ∧ (sendMessage dbW 2 5 "hey" = (.forbidden, dbW))
    ∧ (∃ m : Message,
        (sendMessage dbW 0 5 "hey").1 = .ok (msgToOut (sendMessage dbW 0 5 "hey").2 m)
        ∧ (sendMessage dbW 0 5 "hey").2.messages = dbW.messages ++ [m]
        ∧ m.read = false ∧ m.content = "hey" ∧ m.userId = 0 ∧ m.chatId = 5
        ∧ (sendMessage dbW 0 5 "hey").2.chats = touchChat dbW.chats 5 dbW.now
        ∧ (msgToOut (sendMessage dbW 0 5 "hey").2 m).senderId = 0
        ∧ (msgToOut (sendMessage dbW 0 5 "hey").2 m).user = findUser dbW 0) :=
  ⟨(C5_sendMessage dbW 0 5 "   ").1 (by decide),
   (C5_sendMessage dbW 0 99 "hey").2.1 (by decide) (by decide),
   (C5_sendMessage dbW 2 5 "hey").2.2.1 (by decide) (by decide) (by decide),
   (C5_sendMessage dbW 0 5 "hey").2.2.2 (by decide) (by decide) (by decide)⟩

/-- Counterexample for C2: with caller 0 and `participantIds = [1, 2]` on a
private chat request, the final participant set has size 3, yet `createChat`
does not fail with the validation error — it creates a Chat row. -/
theorem C2_counterexample :
    (createChat dbW 0 [1, 2] "" false).1 ≠ CreateChatResult.validationError
    ∧ (createChat dbW 0 [1, 2] "" false).2.chats.length = dbW.chats.length + 1 := by
  decide

/-- Claim C2 as amended: `createChat` fails with the validation error exactly
when the request's `participantIds` list has fewer than 1 entry — the check
runs before the caller's id is forced in, and no size-2 check is performed
for private chats; on validation failure nothing is created. -/
theorem C2_createChat_validation (db : DB) (caller : Nat) (ps : List Nat)
    (name : String) (g : Bool) :
    ((createChat db caller ps name g).1 = .validationError ↔ ps.length < 1)
    ∧ (ps.length < 1 → (createChat db caller ps name g).2 = db) := by
  constructor
  · constructor
    · intro h
      by_cases h1 : ps.length < 1
      · exact h1
      · exfalso
        unfold createChat at h
        rw [if_neg h1] at h
        simp at h
    · intro h1
      unfold createChat
      rw [if_pos h1]
  · intro h1
    unfold createChat
    rw [if_pos h1]

/-- Witness for C2 as amended: the empty request list is rejected and the
store is unchanged. -/
theorem C2_createChat_validation_witness :
    ((createChat dbW 0 ([] : List Nat) "" true).1 = .validationError)
    ∧ (createChat dbW 0 ([] : List Nat) "" true).2 = dbW :=
  ⟨((C2_createChat_validation dbW 0 [] "" true).1).mpr (by decide),
   (C2_createChat_validation dbW 0 [] "" true).2 (by decide)⟩

/-- `chatExists` false means the controller's `find?` misses. -/
theorem find?_chat_none (db : DB) (cid : Nat) (h : chatExists db cid = false) :
    db.chats.find? (fun c => c.id == cid) = none := by
  rw [List.find?_eq_none]
  intro c hc hpc
  have h2 : chatExists db cid = true := List.any_eq_true.mpr ⟨c, hc, hpc⟩
  exact absurd h2 (by simp [h])

/-- `chatExists` true means the controller's `find?` hits. -/
theorem find?_chat_some (db : DB) (cid : Nat) (h : chatExists db cid = true) :
    ∃ c, db.chats.find? (fun c => c.id == cid) = some c := by
  rcases List.any_eq_true.mp h with ⟨c, hc, hpc⟩
  exact Option.isSome_iff_exists.mp (List.find?_isSome.mpr ⟨c, hc, hpc⟩)

/-- Counterexample for C3: chat 5 of the store `dbW` is private
(`isGroup = false`), yet `addParticipant` succeeds in adding user 2 to it —
there is no invalid-operation failure for private chats. -/
theorem C3_counterexample :
    ({ id := 5, name := "B", isGroup := false, lastMessageAt := 3 } : Chat) ∈ dbW.chats
    ∧ (addParticipant dbW 0 5 2).1 = AddParticipantResult.ok
    ∧ isParticipant (addParticipant dbW 0 5 2).2 5 2 = true := by
  decide

/-- Claim C3 as amended: `addParticipant` fails with not-found when the chat
or the target user is absent, with a forbidden error when the requester is
not a participant, and with a conflict when the target already participates;
otherwise it succeeds — on group and private chats alike, with no
private-chat restriction — inserting the participant row, appending the
system join notice (`read = true`, authored by the requester) and bumping
`lastMessageAt`. -/
theorem C3_addParticipant (db : DB) (cur cid uid : Nat) :
    (chatExists db cid = false → addParticipant db cur cid uid = (.chatNotFound, db))
    ∧ (chatExists db cid = true → isParticipant db cid cur = false →
        addParticipant db cur cid uid = (.notParticipant, db))
    ∧ (chatExists db cid = true → isParticipant db cid cur = true →
        userExists db uid = false →
        addParticipant db cur cid uid = (.userNotFound, db))
    ∧ (chatExists db cid = true → isParticipant db cid cur = true →
        userExists db uid = true → isParticipant db cid uid = true →
        addParticipant db cur cid uid = (.alreadyParticipant, db))
    ∧ (chatExists db cid = true → isParticipant db cid cur = true →
        userExists db uid = true → isParticipant db cid uid = false →
        (addParticipant db cur cid uid).1 = .ok
        ∧ (addParticipant db cur cid uid).2.participants
            = db.participants ++ [{ chatId := cid, userId := uid }]
        ∧ (∃ m, (addParticipant db cur cid uid).2.messages = db.messages ++ [m]
            ∧ m.read = true ∧ m.userId = cur ∧ m.content = joinNotice ∧ m.chatId = cid)
        ∧ (addParticipant db cur cid uid).2.chats = touchChat db.chats cid db.now) := by
  refine ⟨?_, ?_, ?_, ?_, ?_⟩
  · intro h
    unfold addParticipant
    rw [find?_chat_none db cid h]
  · intro h h1
    obtain ⟨c, hc⟩ := find?_chat_some db cid h
    unfold addParticipant
    simp only [hc]
    rw [if_pos (by simp [h1])]
  · intro h h1 h2
    obtain ⟨c, hc⟩ := find?_chat_some db cid h
    unfold addParticipant
    simp only [hc]
    rw [if_neg (by simp [h1]), if_pos (by simp [h2])]
  · intro h h1 h2 h3
    obtain ⟨c, hc⟩ := find?_chat_some db cid h
    unfold addParticipant
    simp only [hc]
    rw [if_neg (by simp [h1]), if_neg (by simp [h2]), if_pos (by simp [h3])]
  · intro h h1 h2 h3
    obtain ⟨c, hc⟩ := find?_chat_some db cid h
    unfold addParticipant
    simp only [hc]
    rw [if_neg (by simp [h1]), if_neg (by simp [h2]), if_neg (by simp [h3])]
    exact ⟨rfl, rfl, ⟨_, rfl, rfl, rfl, rfl, rfl⟩, rfl⟩

/-- Witness for C3 as amended: each case at a concrete store. -/
theorem C3_addParticipant_witness :
    (addParticipant dbW 0 99 2 = (.chatNotFound, dbW))
    ∧ (addParticipant dbW 2 5 1 = (.notParticipant, dbW))
    ∧ (addParticipant dbW 0 5 7 = (.userNotFound, dbW))
    ∧ (addParticipant dbW 0 5 1 = (.alreadyParticipant, dbW))
    ∧ (addParticipant dbW 0 5 2).1 = .ok :=
  ⟨(C3_addParticipant dbW 0 99 2).1 (by decide),
   (C3_addParticipant dbW 2 5 1).2.1 (by decide) (by decide),
   (C3_addParticipant dbW 0 5 7).2.2.1 (by decide) (by decide) (by decide),
   (C3_addParticipant dbW 0 5 1).2.2.2.1 (by decide) (by decide) (by decide) (by decide),
   ((C3_addParticipant dbW 0 5 2).2.2.2.2 (by decide) (by decide) (by decide)
      (by decide)).1⟩

/-- Counterexample for C4: leaving the private chat 5 does not fail with an
invalid-operation rejection but with the generic rollback 500, and leaving
the group chat 8 — which the claim's success contract covers — also answers
500 with the store unchanged: no participant row is ever deleted and no
leave notice appended. -/
theorem C4_counterexample :
    ({ id := 5, name := "B", isGroup := false, lastMessageAt := 3 } : Chat) ∈ dbW.chats
    ∧ leaveChat dbW 0 5 = (.serverError, dbW)
    ∧ ({ id := 8, name := "G", isGroup := true, lastMessageAt := 2 } : Chat) ∈ dbG.chats
    ∧ isParticipant dbG 8 0 = true
    ∧ leaveChat dbG 0 8 = (.serverError, dbG)
    ∧ isParticipant (leaveChat dbG 0 8).2 8 0 = true := by
  decide

/-- Claim C4 as amended: `leaveChat` fails with not-found when the chat is
absent and with a bad-request error when the user is not a participant;
there is no private-chat invalid-operation rejection.  No leave ever
succeeds: for every existing chat with the user a participant — group or
private alike — the count destructure throws, the transaction rolls back
into a 500 response, and the store is unchanged in every case: no
participant row deletion, chat deletion, message deletion, or leave notice
ever persists. -/
theorem C4_leaveChat (db : DB) (uid cid : Nat) :
    (chatExists db cid = false → leaveChat db uid cid = (.chatNotFound, db))
    ∧ (chatExists db cid = true → isParticipant db cid uid = false →
        leaveChat db uid cid = (.notParticipant, db))
    ∧ (chatExists db cid = true → isParticipant db cid uid = true →
        leaveChat db uid cid = (.serverError, db))
    ∧ (leaveChat db uid cid).2 = db := by
  refine ⟨?_, ?_, ?_, leaveChat_state db uid cid⟩
  · intro h
    unfold leaveChat
    rw [find?_chat_none db cid h]
  · intro h h1
    obtain ⟨c, hc⟩ := find?_chat_some db cid h
    unfold leaveChat
    simp only [hc]
    rw [if_pos (by simp [h1])]
  · intro h h1
    obtain ⟨c, hc⟩ := find?_chat_some db cid h
    unfold leaveChat
    simp only [hc]
    rw [if_neg (by simp [h1])]

/-- Witness for C4 as amended: each case at a concrete store; the valid
leave of group chat 8 errors and changes nothing. -/
theorem C4_leaveChat_witness :
    (leaveChat dbW 0 99 = (.chatNotFound, dbW))
    ∧ (leaveChat dbW 2 5 = (.notParticipant, dbW))
    ∧ (leaveChat dbG 0 8 = (.serverError, dbG)) :=
  ⟨(C4_leaveChat dbW 0 99).1 (by decide),
   (C4_leaveChat dbW 2 5).2.1 (by decide) (by decide),
   (C4_leaveChat dbG 0 8).2.2.1 (by decide) (by decide)⟩

/-- Claim C7, evaluated at the failing input: the forbidden check is real
(user 2 gets 403, store untouched), but a participant's request never gets a
page back — `const [messages]` binds the first row and `messages.reverse()`
throws, so the endpoint answers 500 — while the mark-read update, which runs
outside any transaction, has already persisted: after the crashed request
every message of the chat not authored by the requester is read. -/
theorem C7_listMessages_crash :
    isParticipant dbW 5 1 = true
    ∧ getChatMessages dbW 1 5 1 50 = (.serverError, markRead dbW 5 1)
    ∧ (∀ m ∈ (getChatMessages dbW 1 5 1 50).2.messages,
        m.chatId = 5 → m.userId ≠ 1 → m.read = true)
    ∧ getChatMessages dbW 2 5 1 50 = (.forbidden, dbW) := by
  decide

/-- `partsOf` distributes over row-list append. -/
theorem partsOf_append (ps qs : List ChatParticipant) (cid : Nat) :
    partsOf (ps ++ qs) cid = partsOf ps cid ++ partsOf qs cid := by
  simp [partsOf, List.filter_append]

/-- The rows created for a fresh chat list exactly the requested user ids. -/
theorem partsOf_newRows (ids : List Nat) (n : Nat) :
    partsOf (ids.map
      (fun uid => ({ chatId := n, userId := uid } : ChatParticipant))) n = ids := by
  induction ids with
  | nil => rfl
  | cons a l ih =>
    unfold partsOf at *
    simp [List.filter_cons, ih]

/-- `createChat` preserves the lower bound. -/
theorem chatsNonEmpty_createChat (db : DB) (caller : Nat) (ps : List Nat)
    (name : String) (g : Bool) (h : chatsNonEmpty db) :
    chatsNonEmpty (createChat db caller ps name g).2 := by
  unfold createChat
  by_cases h1 : ps.length < 1
  · rw [if_pos h1]
    exact h
  · rw [if_neg h1]
    simp only []
    intro c hc
    have hlen : 1 ≤ (if ps.contains caller then ps else ps ++ [caller]).length := by
      split
      · omega
      · simp only [List.length_append]
        omega
    rcases List.mem_append.mp hc with hc | hc
    · have hold := h c hc
      unfold participantsOf at hold ⊢
      simp only []
      rw [partsOf_append]
      simp only [List.length_append]
      omega
    · rcases List.mem_singleton.mp hc with rfl
      unfold participantsOf
      simp only []
      rw [partsOf_append, partsOf_newRows]
      simp only [List.length_append]
      omega

/-- `addParticipant` preserves the lower bound. -/
theorem chatsNonEmpty_addParticipant (db : DB) (cur cid uid : Nat)
    (h : chatsNonEmpty db) :
    chatsNonEmpty (addParticipant db cur cid uid).2 := by
  unfold addParticipant
  split
  · exact h
  · split
    · exact h
    · split
      · exact h
      · split
        · exact h
        · intro c hc
          rcases List.mem_map.mp hc with ⟨c0, hc0, rfl⟩
          have hid : (if c0.id == cid then { c0 with lastMessageAt := db.now }
              else c0).id = c0.id := by
            split <;> rfl
          have hold := h c0 hc0
          unfold participantsOf at hold ⊢
          simp only [hid]
          rw [partsOf_append]
          simp only [List.length_append]
          omega

/-- `leaveChat` preserves the lower bound: it never changes the store. -/
theorem chatsNonEmpty_leaveChat (db : DB) (uid cid : Nat)
    (h : chatsNonEmpty db) :
    chatsNonEmpty (leaveChat db uid cid).2 := by
  rw [leaveChat_state db uid cid]
  exact h

/-- Claim C8 as amended: in every store state reachable by the chat
operations, every persisted chat has at least one participant — createChat
always inserts at least one row, addParticipant only adds, and leaveChat
never commits, so participant sets never shrink and no empty chat ever
persists; the stronger bounds of the claim — groups with at least 2, private
chats with exactly 2 — do not hold, see the counterexample. -/
theorem C8_chats_lower_bound (db : DB) (h : Reachable db) : chatsNonEmpty db := by
  induction h with
  | init us t =>
    intro c hc
    exact absurd hc (by simp [DB.init])
  | tick db t _ ih =>
    exact ih
  | create db caller ps name g _ ih =>
    exact chatsNonEmpty_createChat db caller ps name g ih
  | add db cur cid uid _ ih =>
    exact chatsNonEmpty_addParticipant db cur cid uid ih
  | leave db uid cid _ ih =>
    exact chatsNonEmpty_leaveChat db uid cid ih

/-- Counterexample for C8: the reachable store `dbC8` — reached by one
createChat call with caller 0, `participantIds = [1, 2]` and
`isGroup = false` — holds a private chat (`isGroup = false`) with three
participants: the claim's "every private chat has exactly 2 participants"
fails on reachable states. -/
theorem C8_counterexample :
    Reachable dbC8
    ∧ ({ id := 0, name := "", isGroup := false, lastMessageAt := 0 } : Chat) ∈ dbC8.chats
    ∧ (participantsOf dbC8 0).length = 3 :=
  ⟨Reachable.create _ 0 [1, 2] "" false (Reachable.init [] 0),
   by decide, by decide⟩

/-- Witness for C8 as amended: the lower bound applied to the reachable
store `dbC8` and its chat. -/
theorem C8_chats_lower_bound_witness :
    1 ≤ (participantsOf dbC8
      ({ id := 0, name := "", isGroup := false, lastMessageAt := 0 } : Chat).id).length :=
  C8_chats_lower_bound dbC8
    (Reachable.create _ 0 [1, 2] "" false (Reachable.init [] 0))
    { id := 0, name := "", isGroup := false, lastMessageAt := 0 }
    (by decide)

/-- `find?` over a pointwise-mapped list, when the map preserves the
predicate. -/
theorem find?_map_pres (p : CChat → Bool) (f : CChat → CChat)
    (hp : ∀ c, p (f c) = p c) (l : List CChat) :
    (l.map f).find? p = (l.find? p).map f := by
  induction l with
  | nil => rfl
  | cons a l ih =>
    by_cases ha : p a = true
    · rw [List.map_cons, List.find?_cons_of_pos _ (by rw [hp]; exact ha),
        List.find?_cons_of_pos _ ha]
      rfl
    · rw [List.map_cons, List.find?_cons_of_neg _ (by rw [hp]; exact ha),
        List.find?_cons_of_neg _ ha, ih]

/-- After the optimistic prepend, the provider's chat carries the temp entry
in front. -/
theorem find?_prepend (st : ClientState) (cid : String) (m : CMessage) (c0 : CChat)
    (hfind : st.chats.find? (fun c => c.id == cid) = some c0) :
    (prependToChat st cid m).chats.find? (fun c => c.id == cid)
      = some { c0 with messages := m :: c0.messages } := by
  unfold prependToChat
  rw [find?_map_pres (fun c => c.id == cid) _ (fun c => by split <;> rfl), hfind]
  have hc0 : (c0.id == cid) = true := by simpa using List.find?_some hfind
  simp only [Option.map_some']
  rw [if_pos hc0]

/-- The REST reconciliation rewrites the matching chat's messages pointwise. -/
theorem chatMsgs_reconcile (st : ClientState) (cid tempId : String)
    (real : CMessage) (c0 : CChat)
    (hfind : st.chats.find? (fun c => c.id == cid) = some c0) :
    chatMsgs (reconcileRest st cid tempId real) cid
      = c0.messages.map (fun m => if m.id == tempId then real else m) := by
  unfold chatMsgs reconcileRest
  rw [find?_map_pres (fun c => c.id == cid) _ (fun c => by split <;> rfl), hfind]
  have hc0 : (c0.id == cid) = true := by simpa using List.find?_some hfind
  simp only [Option.map_some']
  rw [if_pos hc0]

/-- Counterexample for C9: on the socket path the provider inserts the
optimistic entry, and the echoed canonical copy is then prepended by the
`new_message` handler without any temp-id lookup — the sender ends up
rendering two entries for the one sent message. -/
theorem C9_counterexample :
    ((chatMsgs (serverEcho (optimisticSend c9St "c" "alice" "hola" 5).1 "c"
        c9Canonical) "c").filter
      (fun m => m.senderId == "alice" && m.content == "hola")).length = 2
    ∧ (optimisticSend c9St "c" "alice" "hola" 5).2
        ∈ chatMsgs (serverEcho (optimisticSend c9St "c" "alice" "hola" 5).1 "c"
            c9Canonical) "c"
    ∧ c9Canonical
        ∈ chatMsgs (serverEcho (optimisticSend c9St "c" "alice" "hola" 5).1 "c"
            c9Canonical) "c" := by
  decide

/-- Claim C9 as amended: the optimistic entry carries the temporary id
`"temp_" + Date.now()`, and on the REST fallback path the reconciliation
replaces it by that id, leaving exactly one entry (the canonical one) for the
sent message; on the socket path no reconciliation happens and the sender
renders both copies (see the counterexample). -/
theorem C9_rest_reconciliation (st : ClientState) (cid sender content : String)
    (now : Nat) (real : CMessage) (c0 : CChat)
    (hfind : st.chats.find? (fun c => c.id == cid) = some c0)
    (hTempFresh : ∀ m ∈ c0.messages, m.id ≠ (tempMessage sender content now).id)
    (hRealFresh : ∀ m ∈ c0.messages, m.id ≠ real.id)
    (hneq : real.id ≠ (tempMessage sender content now).id) :
    chatMsgs (reconcileRest (optimisticSend st cid sender content now).1 cid
        (optimisticSend st cid sender content now).2.id real) cid
      = real :: c0.messages
    ∧ ((chatMsgs (reconcileRest (optimisticSend st cid sender content now).1 cid
          (optimisticSend st cid sender content now).2.id real) cid).filter
        (fun m => m.id == real.id)).length = 1
    ∧ (optimisticSend st cid sender content now).2
        ∉ chatMsgs (reconcileRest (optimisticSend st cid sender content now).1 cid
            (optimisticSend st cid sender content now).2.id real) cid
    ∧ (optimisticSend st cid sender content now).2.id = "temp_" ++ toString now := by
  have key : chatMsgs (reconcileRest (optimisticSend st cid sender content now).1 cid
      (optimisticSend st cid sender content now).2.id real) cid
      = real :: c0.messages := by
    show chatMsgs (reconcileRest (prependToChat st cid (tempMessage sender content now))
        cid (tempMessage sender content now).id real) cid = real :: c0.messages
    rw [chatMsgs_reconcile _ _ _ _ _ (find?_prepend st cid _ c0 hfind)]
    simp only [List.map_cons, beq_self_eq_true, if_true]
    congr 1
    refine (List.map_congr_left ?_).trans (List.map_id _)
    intro m hm
    have hne : (m.id == (tempMessage sender content now).id) = false :=
      beq_eq_false_iff_ne.mpr (hTempFresh m hm)
    simp [hne]
  refine ⟨key, ?_, ?_, rfl⟩
  · rw [key]
    have htail : c0.messages.filter (fun m => m.id == real.id) = [] :=
      List.filter_eq_nil_iff.mpr
        (fun m hm => by simp [beq_eq_false_iff_ne.mpr (hRealFresh m hm)])
    simp [List.filter_cons, htail]
  · rw [key]
    intro hmem
    rcases List.mem_cons.mp hmem with hEq | hIn
    · exact hneq (by rw [← hEq]; rfl)
    · exact hTempFresh _ hIn rfl

/-- Witness for C9 as amended: the REST run at the concrete store ends with
exactly the canonical entry and no temp entry. -/
theorem C9_rest_reconciliation_witness :
    chatMsgs (reconcileRest (optimisticSend c9St "c" "alice" "hola" 5).1 "c"
        (optimisticSend c9St "c" "alice" "hola" 5).2.id c9Canonical) "c"
      = c9Canonical :: c9ChatW.messages
    ∧ ((chatMsgs (reconcileRest (optimisticSend c9St "c" "alice" "hola" 5).1 "c"
          (optimisticSend c9St "c" "alice" "hola" 5).2.id c9Canonical) "c").filter
        (fun m => m.id == c9Canonical.id)).length = 1
    ∧ (optimisticSend c9St "c" "alice" "hola" 5).2
        ∉ chatMsgs (reconcileRest (optimisticSend c9St "c" "alice" "hola" 5).1 "c"
            (optimisticSend c9St "c" "alice" "hola" 5).2.id c9Canonical) "c"
    ∧ (optimisticSend c9St "c" "alice" "hola" 5).2.id = "temp_" ++ toString 5 :=
  C9_rest_reconciliation c9St "c" "alice" "hola" 5 c9Canonical c9ChatW
    (by decide) (by decide) (by decide) (by decide)

/-- Claim C1, evaluated at the failing input: the store `dbW` already holds
the private pair chat {0, 1} (chat 5), yet `createChat dbW 0 [0, 1] "" false`
does not return it — the dedup hit-branch is dead because
`const [existingChats]` binds the first row object, whose `.length` is
`undefined` — and a second Chats row for the same pair is inserted: two
private chats for the unordered pair {0, 1} then exist, violating the
claimed uniqueness. -/
theorem C1_duplicate_private_chat :
    (∃ c ∈ dbW.chats, privMatch dbW 0 1 c = true)
    ∧ (createChat dbW 0 [0, 1] "" false).1
        = .created { id := 7, name := "B", isGroup := false, lastMessageAt := 9 }
    ∧ (createChat dbW 0 [0, 1] "" false).2.chats.length = dbW.chats.length + 1
    ∧ ((createChat dbW 0 [0, 1] "" false).2.chats.filter
        (privMatch (createChat dbW 0 [0, 1] "" false).2 0 1)).length = 2 := by
  decide
